import Mathlib

/-!
Shallow embedding of the `citysense` Django application.

The repository has two source files:
  * `src/citysense/menue/views.py` — module constant `ITEMS` and the view
    `choice` (SelectionHandler);
  * `src/citysense/map/views.py` — module constant `apikey`, the routine
    `population` (PopulationLoader) and the view `giza` (MapPageHandler).

Module-level Python globals are embedded as an explicit `GlobalState` record
threaded through every handler; each handler returns its response together
with the (possibly updated) state, so statements about statelessness and
idempotence are about the embedding itself rather than vacuous.  File
access in `population` is embedded as an abstract `FileSystem`, and
`pandas.read_csv` as a header-parsing function that can fail; any Python
exception is an `Except.error`.
-/

namespace Citysense

/-- Values that may appear in a Django template context in this app:
either a plain string or a list of strings (the items table). -/
inductive CtxVal where
  | str (s : String)
  | items (l : List String)
deriving DecidableEq, Repr

/-- The observable outcome of a view: `render template context` embeds
`django.shortcuts.render(request, template, context)` and
`redirect target city` embeds `redirect(target, city=...)`. -/
inductive Response where
  | render (template : String) (context : List (String × CtxVal))
  | redirect (target : String) (city : String)
deriving DecidableEq, Repr

/-- An inbound HTTP request: its method string and its POST form data.
`POST` embeds Django's `request.POST.get`, which yields `None`
(here `none`) when the field is absent. -/
structure Request where
  method : String
  POST : String → Option String

/-- The module-level globals of the two view modules:
`ITEMS` from `menue/views.py` and `apikey` from `map/views.py`. -/
structure GlobalState where
  ITEMS : List String
  apikey : String
deriving DecidableEq, Repr

/-- The state the modules are loaded with:
`ITEMS = ["item1", "item2", "item3"]` and `apikey = ""`. -/
def initState : GlobalState :=
  { ITEMS := ["item1", "item2", "item3"], apikey := "" }

/-- Embedding of `choice` (`src/citysense/menue/views.py`, lines 6-15):
on `method == "POST"` it reads form field `selected_item` and redirects to
`map:giza` with `ITEMS[0]` for `"item1"`, `ITEMS[1]` for `"item2"`, and
`ITEMS[2]` for anything else (including a missing field, since
`None == "item1"` is false in Python); otherwise it renders
`menue/choice.html` with context `{"items": ITEMS}`. -/
def choice (s : GlobalState) (request : Request) : Response × GlobalState :=
  if request.method = "POST" then
    let selected_item := request.POST "selected_item"
    if selected_item = some "item1" then
      (Response.redirect "map:giza" (s.ITEMS[0]!), s)
    else if selected_item = some "item2" then
      (Response.redirect "map:giza" (s.ITEMS[1]!), s)
    else
      (Response.redirect "map:giza" (s.ITEMS[2]!), s)
  else
    (Response.render "menue/choice.html" [("items", CtxVal.items s.ITEMS)], s)

/-- Embedding of `giza` (`src/citysense/map/views.py`, lines 17-21):
renders `map/giza.html` with context `{"city": city, "apikey": apikey}`.
The request is passed to `render` but contributes nothing observable. -/
def giza (s : GlobalState) (_request : Request) (city : String) :
    Response × GlobalState :=
  (Response.render "map/giza.html"
    [("city", CtxVal.str city), ("apikey", CtxVal.str s.apikey)], s)

/-- The tabular structure `pandas.read_csv` produces, reduced to what
`population` observes: the column headers (and the data rows). -/
structure DataFrame where
  columns : List String
  rows : List (List String)
deriving DecidableEq, Repr

/-- Splits a character list at every occurrence of `sep`; the result is
never empty. -/
def splitOnChar (sep : Char) : List Char → List (List Char)
  | [] => [[]]
  | c :: rest =>
      match splitOnChar sep rest with
      | [] => if c = sep then [[], []] else [[c]]
      | first :: others =>
          if c = sep then [] :: first :: others
          else (c :: first) :: others

/-- Splits a string at every occurrence of the character `sep`. -/
def splitString (sep : Char) (s : String) : List String :=
  (splitOnChar sep s.data).map List.asString

/-- Embedding of `pandas.read_csv` on a file's text: the first non-empty
line is the header row, split on commas; a file with no data raises
(pandas `EmptyDataError`), embedded as `Except.error`. -/
def read_csv (contents : String) : Except String DataFrame :=
  match (splitString '\n' contents).filter (fun line => line ≠ "") with
  | [] => Except.error "EmptyDataError: No columns to parse from file"
  | header :: rest =>
      Except.ok { columns := splitString ',' header
                  rows := rest.map (fun line => splitString ',' line) }

/-- The fixed relative path `population` reads
(`Path(__file__).resolve().parent / 'data' / 'wadi_gedid_population.csv'`). -/
def csv_path : String := "map/data/wadi_gedid_population.csv"

/-- An abstract file system: a path either has text contents or does not
exist. A read of a missing path raises in Python (`FileNotFoundError`). -/
structure FileSystem where
  read : String → Option String

/-- Embedding of `population` (`src/citysense/map/views.py`, lines 7-10):
reads the CSV at `csv_path`, and `print`s the data frame's columns.  The
first component is the diagnostic output (`Except.ok` the printed column
list) or the propagated error; the second is the module state, untouched
since the body never assigns a global. -/
def population (s : GlobalState) (fs : FileSystem) :
    Except String (List String) × GlobalState :=
  match fs.read csv_path with
  | none => (Except.error "FileNotFoundError", s)
  | some contents =>
      match read_csv contents with
      | Except.error e => (Except.error e, s)
      | Except.ok df => (Except.ok df.columns, s)

/-! ## Claims -/

/-- C1: For every POST request to `choice`, form field `selected_item`
equal to `"item1"` yields a redirect to the map page with
`city = ITEMS[0]`; `"item2"` yields `city = ITEMS[1]`; and any other
value, including a missing field, yields `city = ITEMS[2]` — always a
redirect, never an error. -/
theorem choice_post_dispatch (r : Request) (h : r.method = "POST") :
    (r.POST "selected_item" = some "item1" →
      (choice initState r).1 = Response.redirect "map:giza" (initState.ITEMS[0]!)) ∧
    (r.POST "selected_item" = some "item2" →
      (choice initState r).1 = Response.redirect "map:giza" (initState.ITEMS[1]!)) ∧
    (r.POST "selected_item" ≠ some "item1" →
      r.POST "selected_item" ≠ some "item2" →
      (choice initState r).1 = Response.redirect "map:giza" (initState.ITEMS[2]!)) := by
  refine ⟨fun h1 => by simp [choice, h, h1], fun h2 => ?_, fun h1 h2 => ?_⟩
  · have h1 : r.POST "selected_item" ≠ some "item1" := by
      rw [h2]; simp
    simp [choice, h, h1, h2]
  · simp [choice, h, h1, h2]

/-- C1 witness: a concrete POST request selecting `"item1"` redirects to
`city = ITEMS[0]`. -/
theorem choice_post_dispatch_witness :
    (choice initState
      ⟨"POST", fun k => if k = "selected_item" then some "item1" else none⟩).1
      = Response.redirect "map:giza" (initState.ITEMS[0]!) :=
  (choice_post_dispatch _ rfl).1 (by simp)

/-- C2: Every request to `choice` with method POST yields a redirect to
the map page carrying some resolved city, and every other request renders
the choice page listing the available items. -/
theorem choice_shape (s : GlobalState) (r : Request) :
    (r.method = "POST" →
      ∃ c, (choice s r).1 = Response.redirect "map:giza" c) ∧
    (r.method ≠ "POST" →
      (choice s r).1 =
        Response.render "menue/choice.html" [("items", CtxVal.items s.ITEMS)]) := by
  constructor
  · intro h
    by_cases h1 : r.POST "selected_item" = some "item1"
    · exact ⟨s.ITEMS[0]!, by simp [choice, h, h1]⟩
    · by_cases h2 : r.POST "selected_item" = some "item2"
      · exact ⟨s.ITEMS[1]!, by simp [choice, h, h1, h2]⟩
      · exact ⟨s.ITEMS[2]!, by simp [choice, h, h1, h2]⟩
  · intro h
    simp [choice, h]

/-- C2 witness: a concrete POST request gets a redirect, and a concrete
GET request gets the rendered choice page. -/
theorem choice_shape_witness :
    (∃ c, (choice initState ⟨"POST", fun _ => none⟩).1
            = Response.redirect "map:giza" c) ∧
    (choice initState ⟨"GET", fun _ => none⟩).1 =
      Response.render "menue/choice.html"
        [("items", CtxVal.items initState.ITEMS)] :=
  ⟨(choice_shape initState ⟨"POST", fun _ => none⟩).1 rfl,
   (choice_shape initState ⟨"GET", fun _ => none⟩).2 (by simp)⟩

/-- C3: For every string city identifier `c`, `giza` produces a response
whose template context contains `c` as the city and the empty string as
the API key; no city value is rejected. -/
theorem giza_context (r : Request) (c : String) :
    (giza initState r c).1 =
      Response.render "map/giza.html"
        [("city", CtxVal.str c), ("apikey", CtxVal.str "")] := rfl

/-- C4: `choice` invoked without a submission (non-POST) renders the
choice page whose context contains exactly the three configured items
`["item1", "item2", "item3"]`, in that order. -/
theorem choice_get_items (r : Request) (h : r.method ≠ "POST") :
    (choice initState r).1 =
      Response.render "menue/choice.html"
        [("items", CtxVal.items ["item1", "item2", "item3"])] := by
  simp [choice, h, initState]

/-- C4 witness: a concrete GET request renders the choice page with the
three items in order. -/
theorem choice_get_items_witness :
    (choice initState ⟨"GET", fun _ => none⟩).1 =
      Response.render "menue/choice.html"
        [("items", CtxVal.items ["item1", "item2", "item3"])] :=
  choice_get_items ⟨"GET", fun _ => none⟩ (by simp)

/-- C5: `population` propagates an error when the CSV file at the fixed
path does not exist or cannot be parsed as CSV; there is no retry or
fallback. -/
theorem population_propagates_errors (s : GlobalState) (fs : FileSystem)
    (h : fs.read csv_path = none ∨
         ∃ contents, fs.read csv_path = some contents ∧
           ∃ e, read_csv contents = Except.error e) :
    ∃ e, (population s fs).1 = Except.error e := by
  rcases h with h | ⟨contents, hc, e, he⟩
  · exact ⟨"FileNotFoundError", by simp [population, h]⟩
  · exact ⟨e, by simp [population, hc, he]⟩

/-- C5 witness: with a file system where the CSV path is missing,
`population` yields an error. -/
theorem population_propagates_errors_witness :
    ∃ e, (population initState ⟨fun _ => none⟩).1 = Except.error e :=
  population_propagates_errors initState ⟨fun _ => none⟩ (Or.inl rfl)

/-- C6: When the CSV file at the fixed path exists and parses to a data
frame whose header row is `[a, b, c]`, `population` emits exactly that
column list to the diagnostic output. -/
theorem population_reports_columns (s : GlobalState) (fs : FileSystem)
    (contents : String) (df : DataFrame)
    (h1 : fs.read csv_path = some contents)
    (h2 : read_csv contents = Except.ok df)
    (h3 : df.columns = ["a", "b", "c"]) :
    (population s fs).1 = Except.ok ["a", "b", "c"] := by
  simp [population, h1, h2, h3]

/-- C6 witness: a concrete file system whose CSV file is
`"a,b,c\n1,2,3"` makes `population` report columns `[a, b, c]`. -/
theorem population_reports_columns_witness :
    (population initState
      ⟨fun p => if p = csv_path then some "a,b,c\n1,2,3" else none⟩).1
      = Except.ok ["a", "b", "c"] :=
  population_reports_columns initState
    ⟨fun p => if p = csv_path then some "a,b,c\n1,2,3" else none⟩
    "a,b,c\n1,2,3"
    { columns := ["a", "b", "c"], rows := [["1", "2", "3"]] }
    (by simp) rfl rfl

/-- C7: Repeated invocation of `giza` with the same city yields an
identical response: invoking it again from the state the first invocation
left behind produces the same body, so the output is a function of its
inputs alone. -/
theorem giza_idempotent (s : GlobalState) (r : Request) (c : String) :
    (giza (giza s r c).2 r c).1 = (giza s r c).1 := rfl

/-- C8: No handler invocation mutates the module globals: `giza`,
`choice` and `population` all return the state unchanged, so after any
invocation from the initial state `ITEMS` is still
`["item1", "item2", "item3"]` and `apikey` is still `""`. -/
theorem handlers_stateless (s : GlobalState) (r : Request) (c : String)
    (fs : FileSystem) :
    (giza s r c).2 = s ∧ (choice s r).2 = s ∧ (population s fs).2 = s ∧
    (giza initState r c).2.ITEMS = ["item1", "item2", "item3"] ∧
    (giza initState r c).2.apikey = "" ∧
    (choice initState r).2.ITEMS = ["item1", "item2", "item3"] ∧
    (choice initState r).2.apikey = "" ∧
    (population initState fs).2.ITEMS = ["item1", "item2", "item3"] ∧
    (population initState fs).2.apikey = "" := by
  have hchoice : ∀ t : GlobalState, (choice t r).2 = t := by
    intro t
    by_cases hm : r.method = "POST"
    · by_cases h1 : r.POST "selected_item" = some "item1"
      · simp [choice, hm, h1]
      · by_cases h2 : r.POST "selected_item" = some "item2"
        · simp [choice, hm, h1, h2]
        · simp [choice, hm, h1, h2]
    · simp [choice, hm]
  have hpop : ∀ t : GlobalState, (population t fs).2 = t := by
    intro t
    unfold population
    split
    · rfl
    · split <;> rfl
  exact ⟨rfl, hchoice s, hpop s, rfl, rfl,
    by rw [hchoice initState]; rfl, by rw [hchoice initState]; rfl,
    by rw [hpop initState]; rfl, by rw [hpop initState]; rfl⟩

/-- C9: For every POST request to `choice`, whatever the value of the
`selected_item` field (any string or absent), the city carried in the
resulting redirect is a member of the three-element `ITEMS` list. -/
theorem choice_city_in_items (r : Request) (h : r.method = "POST") :
    ∃ c, (choice initState r).1 = Response.redirect "map:giza" c ∧
      c ∈ initState.ITEMS := by
  by_cases h1 : r.POST "selected_item" = some "item1"
  · exact ⟨initState.ITEMS[0]!, by simp [choice, h, h1], by simp [initState]⟩
  · by_cases h2 : r.POST "selected_item" = some "item2"
    · exact ⟨initState.ITEMS[1]!, by simp [choice, h, h1, h2],
        by simp [initState]⟩
    · exact ⟨initState.ITEMS[2]!, by simp [choice, h, h1, h2],
        by simp [initState]⟩

/-- C9 witness: a concrete POST request with an unexpected field value
redirects with a city that is in `ITEMS`. -/
theorem choice_city_in_items_witness :
    ∃ c, (choice initState
        ⟨"POST", fun k => if k = "selected_item" then some "weird" else none⟩).1
        = Response.redirect "map:giza" c ∧ c ∈ initState.ITEMS :=
  choice_city_in_items
    ⟨"POST", fun k => if k = "selected_item" then some "weird" else none⟩ rfl

/-- C10: Only a request whose method is exactly the string `"POST"`
enters the submission branch of `choice`: every other method (GET, HEAD,
lowercase `"post"`, ...) renders the choice page and never produces a
redirect. -/
theorem choice_exact_post_dispatch (r : Request) (h : r.method ≠ "POST") :
    (choice initState r).1 =
      Response.render "menue/choice.html"
        [("items", CtxVal.items initState.ITEMS)] ∧
    ∀ t c, (choice initState r).1 ≠ Response.redirect t c := by
  have hr : (choice initState r).1 =
      Response.render "menue/choice.html"
        [("items", CtxVal.items initState.ITEMS)] := by
    simp [choice, h]
  exact ⟨hr, fun t c hc => by rw [hr] at hc; exact Response.noConfusion hc⟩

/-- C10 witness: a lowercase `"post"` request does not enter the
submission branch: it renders the choice page. -/
theorem choice_exact_post_dispatch_witness :
    (choice initState
      ⟨"post", fun k => if k = "selected_item" then some "item1" else none⟩).1 =
      Response.render "menue/choice.html"
        [("items", CtxVal.items initState.ITEMS)] :=
  (choice_exact_post_dispatch
    ⟨"post", fun k => if k = "selected_item" then some "item1" else none⟩
    (by simp)).1

end Citysense
